import Mathlib

/-!
Shallow embedding of the `phys2d` Rust crate (files `src/lib.rs`,
`src/vec2d.rs`): a generic 2D vector type `Vec2D<T>` with componentwise
arithmetic, derived comparison, magnitude / normalization / projection
computed in 64-bit floating point, and the standalone helper `sane_mod`.

Modelling conventions:
* `f64` values are idealized as real numbers (`ℝ`); `f64::sqrt` is
  `Real.sqrt` and `f64` division is real division.
* `i32` values are embedded as `Int`, with the wrap-around (two's
  complement) semantics of `i32` arithmetic made explicit through
  `wrap32`; `i32` division is `Int.tdiv` (truncation toward zero, as in
  Rust).
* a Rust panic (the `unimplemented!()` body of `abs`) is modelled by an
  `Option` result that is always `none`.
-/

/-- The struct `Vec2D<T> { x: T, y: T }` from `src/vec2d.rs`. -/
structure Vec2D (T : Type) where
  x : T
  y : T
deriving Repr, DecidableEq

namespace Vec2D

/-- `Vec2D::new(x, y)`: pure assignment constructor. -/
def new {T : Type} (x y : T) : Vec2D T := ⟨x, y⟩

/-- The comparison produced by Rust's `#[derive(PartialOrd)]` on
`Vec2D`, parameterized by the scalar-level comparison `c` (Rust's
`partial_cmp` on `T`, with `none` meaning "incomparable"): the fields
are compared in declaration order, the first non-equal result deciding. -/
def cmp {T : Type} (c : T → T → Option Ordering) (a b : Vec2D T) :
    Option Ordering :=
  match c a.x b.x with
  | some Ordering.eq => c a.y b.y
  | o => o

/-- The derived `<` operator: `partial_cmp` returned `Some(Less)`. -/
def ltOp {T : Type} (c : T → T → Option Ordering) (a b : Vec2D T) : Prop :=
  cmp c a b = some Ordering.lt

/-- The derived `<=` operator: `partial_cmp` returned
`Some(Less)` or `Some(Equal)`. -/
def leOp {T : Type} (c : T → T → Option Ordering) (a b : Vec2D T) : Prop :=
  cmp c a b = some Ordering.lt ∨ cmp c a b = some Ordering.eq

/-- `Vec2D::dot_product(a, b) = a.x*b.x + a.y*b.y` (generic version, for
scalars whose multiplication and addition are the mathematical ones,
e.g. `f64` idealized as `ℝ`). -/
def dot_product {T : Type} [Add T] [Mul T] (a b : Vec2D T) : T :=
  a.x * b.x + a.y * b.y

/-- The `Add` impl: `Vec2D::new(self.x + rhs.x, self.y + rhs.y)`. -/
def vadd {T : Type} [Add T] (a b : Vec2D T) : Vec2D T :=
  new (a.x + b.x) (a.y + b.y)

/-- The `AddAssign` impl: `self.x += rhs.x; self.y += rhs.y`, modelled
by threading the mutated state field by field and returning the final
state. -/
def vaddAssign {T : Type} [Add T] (a b : Vec2D T) : Vec2D T :=
  let a1 : Vec2D T := { a with x := a.x + b.x }
  { a1 with y := a1.y + b.y }

/-- The `Sub` impl: `Vec2D::new(self.x - rhs.x, self.y - rhs.y)`. -/
def vsub {T : Type} [Sub T] (a b : Vec2D T) : Vec2D T :=
  new (a.x - b.x) (a.y - b.y)

/-- The `SubAssign` impl: `self.x -= rhs.x; self.y -= rhs.y`. -/
def vsubAssign {T : Type} [Sub T] (a b : Vec2D T) : Vec2D T :=
  let a1 : Vec2D T := { a with x := a.x - b.x }
  { a1 with y := a1.y - b.y }

/-- The `Mul<T>` impl (vector times scalar):
`Vec2D::new(self.x * rhs, self.y * rhs)`. -/
def vmul {T : Type} [Mul T] (v : Vec2D T) (s : T) : Vec2D T :=
  new (v.x * s) (v.y * s)

/-- The `MulAssign<T>` impl: `self.x *= rhs; self.y *= rhs`. -/
def vmulAssign {T : Type} [Mul T] (v : Vec2D T) (s : T) : Vec2D T :=
  let v1 : Vec2D T := { v with x := v.x * s }
  { v1 with y := v1.y * s }

/-- The `Div<T>` impl (vector divided by scalar):
`Vec2D::new(self.x / rhs, self.y / rhs)`, using the scalar's own
division. -/
def vdiv {T : Type} [Div T] (v : Vec2D T) (s : T) : Vec2D T :=
  new (v.x / s) (v.y / s)

/-- The `DivAssign<T>` impl: `self.x /= rhs; self.y /= rhs`. -/
def vdivAssign {T : Type} [Div T] (v : Vec2D T) (s : T) : Vec2D T :=
  let v1 : Vec2D T := { v with x := v.x / s }
  { v1 with y := v1.y / s }

/-- The `Neg` impl: `Vec2D::new(-self.x, -self.y)`. -/
def vneg {T : Type} [Neg T] (v : Vec2D T) : Vec2D T :=
  new (-v.x) (-v.y)

/-- `Vec2D::abs`: the body is `unimplemented!()`, an unconditional
panic; the panic is modelled as `none`. -/
def abs {T : Type} (_v : Vec2D T) : Option (Vec2D T) := none

end Vec2D

/-- Two's complement wrap-around to the `i32` value range
`[-2^31, 2^31)`, the release-mode overflow behaviour of Rust `i32`
arithmetic. -/
def wrap32 (n : Int) : Int := (n + 2 ^ 31) % 2 ^ 32 - 2 ^ 31

/-- `i32` addition (wrapping). -/
def i32Add (a b : Int) : Int := wrap32 (a + b)

/-- `i32` multiplication (wrapping). -/
def i32Mul (a b : Int) : Int := wrap32 (a * b)

/-- The exact conversion `f64::from(i32)` (every `i32` is exactly
representable as an `f64`, so the idealization to `ℝ` is the plain
cast). -/
def i32ToR (n : Int) : ℝ := (n : ℝ)

namespace Vec2D

/-- `Vec2D::dot_product` at scalar type `i32`:
`a.x*b.x + a.y*b.y` computed with native `i32` arithmetic. -/
def dot_productI32 (a b : Vec2D Int) : Int :=
  i32Add (i32Mul a.x b.x) (i32Mul a.y b.y)

/-- `Vec2D::magnitude` at scalar type `i32`:
`f64::from(self.x*self.x + self.y*self.y).sqrt()`, the squared norm
being computed in `i32` before the widening conversion. -/
noncomputable def magnitudeI32 (v : Vec2D Int) : ℝ :=
  Real.sqrt (i32ToR (i32Add (i32Mul v.x v.x) (i32Mul v.y v.y)))

/-- `Vec2D::magnitude` at scalar type `f64` (idealized as `ℝ`):
`f64::from` is the identity there. -/
noncomputable def magnitudeR (v : Vec2D ℝ) : ℝ :=
  Real.sqrt (v.x * v.x + v.y * v.y)

/-- The `From<Vec2D<i32>> for Vec2D<f64>` impl:
`Vec2D::new(src.x as f64, src.y as f64)`. -/
def fromI32 (src : Vec2D Int) : Vec2D ℝ :=
  new (i32ToR src.x) (i32ToR src.y)

/-- `Vec2D::to_unit` at scalar type `i32`: divides the converted
components by `magnitude()`. -/
noncomputable def to_unitI32 (v : Vec2D Int) : Vec2D ℝ :=
  let mag := magnitudeI32 v
  new (i32ToR v.x / mag) (i32ToR v.y / mag)

/-- `Vec2D::project_onto` at scalar type `i32`:
`unit_b * dot_product(Vec2D<f64>::from(self), unit_b)` with
`unit_b = b.to_unit()`. -/
noncomputable def project_ontoI32 (a b : Vec2D Int) : Vec2D ℝ :=
  let unit_b := to_unitI32 b
  vmul unit_b (dot_product (fromI32 a) unit_b)

end Vec2D

/-- `sane_mod(a, b) = a - (a/b).floor() * b` from `src/lib.rs`,
idealizing `f64` as `ℝ`. -/
noncomputable def sane_mod (a b : ℝ) : ℝ := a - (⌊a / b⌋ : ℝ) * b

/-- The scalar comparison of a total order such as `i32`
(`partial_cmp` never returns `None` there). -/
def intCmp (a b : Int) : Option Ordering := some (compare a b)

/-- The scalar comparison of `f64`: a value is either a number
(modelled here with an integer payload, enough for comparisons) or NaN
(`none`), and any comparison involving NaN is incomparable, NaN against
itself included — IEEE-754 partial-order semantics. -/
def floatCmp (a b : Option Int) : Option Ordering :=
  match a, b with
  | some x, some y => some (compare x y)
  | _, _ => none

/-- `i32` division, truncating toward zero as Rust's `/` on `i32` does
(Lean's `Int` division is Euclidean, so the truncating `Int.tdiv` is
used explicitly). -/
def i32Div (a b : Int) : Int := Int.tdiv a b

/-- The `Div<i32>` impl instantiated at scalar type `i32`:
`Vec2D::new(self.x / rhs, self.y / rhs)` with native `i32` division. -/
def vdivI32 (v : Vec2D Int) (s : Int) : Vec2D Int :=
  Vec2D.new (i32Div v.x s) (i32Div v.y s)

/-- Claim C1: as stated — the derived `<` holding iff both components
are `<`, and incomparability whenever any component comparison is
incomparable — is false: the derived comparison is lexicographic. At
`a = (1,5)`, `b = (2,3)` (integer scalars) the derived `a < b` holds
although the `y` components are not ordered that way; and at
`a = (1, NaN)`, `b = (2, 0)` (float scalars, NaN modelled as the
incomparable value) the `y` comparison is incomparable yet the derived
comparison still returns `Less`. -/
theorem C1_componentwise_order_counterexample :
    (Vec2D.ltOp intCmp (Vec2D.new 1 5) (Vec2D.new 2 3) ∧
      ¬ (intCmp 1 2 = some Ordering.lt ∧ intCmp 5 3 = some Ordering.lt)) ∧
    (floatCmp none (some 0) = none ∧
      Vec2D.cmp floatCmp (Vec2D.new (some 1) (none : Option Int))
        (Vec2D.new (some 2) (some 0)) = some Ordering.lt) := by
  refine ⟨⟨?_, ?_⟩, ?_, ?_⟩
  · show Vec2D.cmp intCmp (Vec2D.new 1 5) (Vec2D.new 2 3) = some Ordering.lt
    decide
  · decide
  · decide
  · decide

/-- Claim C1 (amended): the derived vector-level comparison is the
lexicographic partial order of Rust's `#[derive(PartialOrd)]`: `a < b`
iff `a.x < b.x`, or `a.x == b.x` and `a.y < b.y`; and the comparison is
incomparable iff the `x` comparison is incomparable, or the `x`
components are equal and the `y` comparison is incomparable (so a NaN
component makes the vectors incomparable exactly when it is reached). -/
theorem C1_derived_order_lexicographic {T : Type}
    (c : T → T → Option Ordering) (a b : Vec2D T) :
    (Vec2D.ltOp c a b ↔ c a.x b.x = some Ordering.lt ∨
      (c a.x b.x = some Ordering.eq ∧ c a.y b.y = some Ordering.lt)) ∧
    (Vec2D.cmp c a b = none ↔ c a.x b.x = none ∨
      (c a.x b.x = some Ordering.eq ∧ c a.y b.y = none)) := by
  cases h : c a.x b.x with
  | none => simp [Vec2D.ltOp, Vec2D.cmp, h]
  | some o => cases o <;> simp [Vec2D.ltOp, Vec2D.cmp, h]

/-- Claim C2: magnitude is `sqrt(float64(x*x + y*y))` with the squared
norm computed in the native scalar type first (wrapping `i32`
arithmetic, so it can overflow before the conversion); in particular
`magnitude(Vec2D(3,7)) = √58`, and the spec's decimal literal
`7.615773105863909` agrees with `√58` to within `10⁻¹⁵` (it is the
64-bit float rendering of `√58`). -/
theorem C2_magnitude :
    (∀ v : Vec2D Int, Vec2D.magnitudeI32 v =
      Real.sqrt ((wrap32 (wrap32 (v.x * v.x) + wrap32 (v.y * v.y)) : Int) : ℝ)) ∧
    Vec2D.magnitudeI32 (Vec2D.new 3 7) = Real.sqrt 58 ∧
    |Vec2D.magnitudeI32 (Vec2D.new 3 7) - 7.615773105863909| < 1e-15 := by
  have h58 : i32Add (i32Mul 3 3) (i32Mul 7 7) = 58 := by decide
  have hmag : Vec2D.magnitudeI32 (Vec2D.new 3 7) = Real.sqrt 58 := by
    show Real.sqrt (i32ToR (i32Add (i32Mul 3 3) (i32Mul 7 7))) = Real.sqrt 58
    rw [h58]; norm_num [i32ToR]
  refine ⟨fun v => rfl, hmag, ?_⟩
  rw [hmag, abs_sub_lt_iff]
  constructor
  · have h := (Real.sqrt_lt' (x := 58)
      (y := 7.615773105863909 + 1e-15) (by norm_num)).mpr (by norm_num)
    linarith
  · have h := (Real.lt_sqrt (x := 7.615773105863909 - 1e-15)
      (y := 58) (by norm_num)).mpr (by norm_num)
    linarith

/-- Claim C3: `project_onto(a, b)` is `unit_b * dot_product(f64(a),
unit_b)` with `unit_b = b.to_unit()`, and the concrete example
`project_onto(Vec2D(5,5), Vec2D(0,1)) = Vec2D(0.0, 5.0)` holds. -/
theorem C3_project_onto :
    (∀ a b : Vec2D Int, Vec2D.project_ontoI32 a b =
      Vec2D.vmul (Vec2D.to_unitI32 b)
        (Vec2D.dot_product (Vec2D.fromI32 a) (Vec2D.to_unitI32 b))) ∧
    Vec2D.project_ontoI32 (Vec2D.new 5 5) (Vec2D.new 0 1) =
      Vec2D.new (0 : ℝ) 5 := by
  have h1 : i32Add (i32Mul 0 0) (i32Mul 1 1) = 1 := by decide
  have hmag : Vec2D.magnitudeI32 (Vec2D.new 0 1) = 1 := by
    show Real.sqrt (i32ToR (i32Add (i32Mul 0 0) (i32Mul 1 1))) = 1
    rw [h1]; norm_num [i32ToR]
  have hmag' : Vec2D.magnitudeI32 ⟨0, 1⟩ = 1 := hmag
  refine ⟨fun a b => rfl, ?_⟩
  show Vec2D.vmul (Vec2D.to_unitI32 (Vec2D.new 0 1))
      (Vec2D.dot_product (Vec2D.fromI32 (Vec2D.new 5 5))
        (Vec2D.to_unitI32 (Vec2D.new 0 1))) = Vec2D.new (0 : ℝ) 5
  simp [Vec2D.to_unitI32, hmag', Vec2D.vmul, Vec2D.dot_product,
    Vec2D.fromI32, Vec2D.new, i32ToR]

/-- Claim C4: as stated — `sane_mod(a, b) = a - floor(a/b)*b` always
non-negative — is false for a negative divisor: `sane_mod(2, -4) = -2`. -/
theorem C4_negative_divisor_counterexample :
    sane_mod 2 (-4) = -2 ∧ sane_mod 2 (-4) < 0 := by
  have hfl : ⌊(2 : ℝ) / (-4)⌋ = -1 := by norm_num
  unfold sane_mod
  rw [hfl]
  norm_num

/-- Claim C4 (amended): `sane_mod(a, b)` computes `a - floor(a/b)*b`
for all inputs, and for every positive divisor `b` the result is
non-negative — in fact lies in `[0, b)` — for every dividend `a`,
negative dividends included. -/
theorem C4_sane_mod_nonneg (a b : ℝ) (hb : 0 < b) :
    sane_mod a b = a - (⌊a / b⌋ : ℝ) * b ∧
    0 ≤ sane_mod a b ∧ sane_mod a b < b := by
  have hb0 : b ≠ 0 := ne_of_gt hb
  have key : sane_mod a b = b * Int.fract (a / b) := by
    unfold sane_mod Int.fract
    field_simp
    ring
  refine ⟨rfl, ?_, ?_⟩
  · rw [key]
    exact mul_nonneg hb.le (Int.fract_nonneg _)
  · rw [key]
    calc b * Int.fract (a / b) < b * 1 :=
          mul_lt_mul_of_pos_left (Int.fract_lt_one _) hb
      _ = b := mul_one b

/-- Witness for C4 at `a = -6`, `b = 4` (the doctest example:
`sane_mod(-6, 4) = 2`). -/
theorem C4_sane_mod_nonneg_witness :
    (0 : ℝ) < 4 ∧
    (sane_mod (-6) 4 = (-6) - (⌊(-6 : ℝ) / 4⌋ : ℝ) * 4 ∧
      0 ≤ sane_mod (-6) 4 ∧ sane_mod (-6) 4 < 4) :=
  ⟨by norm_num, C4_sane_mod_nonneg (-6) 4 (by norm_num)⟩

/-- Claim C5: each in-place operator leaves the left operand in exactly
the state the value-returning operator computes: `+=` matches `+`,
`-=` matches `-`, `*=` matches `*`, `/=` matches `/`. -/
theorem C5_in_place_matches_value {T : Type} [Add T] [Sub T] [Mul T]
    [Div T] (a b : Vec2D T) (s : T) :
    Vec2D.vaddAssign a b = Vec2D.vadd a b ∧
    Vec2D.vsubAssign a b = Vec2D.vsub a b ∧
    Vec2D.vmulAssign a s = Vec2D.vmul a s ∧
    Vec2D.vdivAssign a s = Vec2D.vdiv a s :=
  ⟨rfl, rfl, rfl, rfl⟩

/-- Claim C6: scalar division is componentwise native division:
truncating for `i32` (`Vec2D(7,7)/2 = Vec2D(3,3)`), continuous for
`f64` (`Vec2D(7.0,7.0)/2.0 = Vec2D(3.5,3.5)`). -/
theorem C6_scalar_division :
    (∀ (v : Vec2D Int) (s : Int),
      vdivI32 v s = Vec2D.new (Int.tdiv v.x s) (Int.tdiv v.y s)) ∧
    vdivI32 (Vec2D.new 7 7) 2 = Vec2D.new 3 3 ∧
    Vec2D.vdiv (Vec2D.new (7 : ℝ) 7) 2 = Vec2D.new 3.5 3.5 := by
  refine ⟨fun v s => rfl, by decide, ?_⟩
  simp [Vec2D.vdiv, Vec2D.new]
  norm_num

/-- Claim C7: for scalars whose negation is the additive inverse,
`a + (-a)` is the zero vector, and `a - a` is the zero vector. -/
theorem C7_additive_inverse {T : Type} [AddGroup T] (a : Vec2D T) :
    Vec2D.vadd a (Vec2D.vneg a) = Vec2D.new 0 0 ∧
    Vec2D.vsub a a = Vec2D.new 0 0 := by
  constructor <;> simp [Vec2D.vadd, Vec2D.vneg, Vec2D.vsub, Vec2D.new]

/-- Claim C8: the `i32`-to-`f64` conversion is the componentwise
numeric cast, equal to direct construction from the same numeric
values, and every in-range `i32` component value is exactly
representable as a 64-bit float (it is `m·2^e` with `|m| < 2^53`). -/
theorem C8_conversion_exact (v : Vec2D Int)
    (hx : -2 ^ 31 ≤ v.x ∧ v.x < 2 ^ 31)
    (hy : -2 ^ 31 ≤ v.y ∧ v.y < 2 ^ 31) :
    Vec2D.fromI32 v = Vec2D.new ((v.x : ℝ)) ((v.y : ℝ)) ∧
    (∃ m e : ℤ, |m| < 2 ^ 53 ∧ (v.x : ℝ) = (m : ℝ) * 2 ^ e) ∧
    (∃ m e : ℤ, |m| < 2 ^ 53 ∧ (v.y : ℝ) = (m : ℝ) * 2 ^ e) := by
  have p31 : (2 : ℤ) ^ 31 = 2147483648 := by norm_num
  have p53 : (2 : ℤ) ^ 53 = 9007199254740992 := by norm_num
  refine ⟨rfl, ⟨v.x, 0, ?_, by norm_num⟩, ⟨v.y, 0, ?_, by norm_num⟩⟩
  · rw [abs_lt]
    constructor <;> omega
  · rw [abs_lt]
    constructor <;> omega

/-- Witness for C8 at the extreme vector `(i32::MIN, i32::MAX)`. -/
theorem C8_conversion_exact_witness :
    ((-2 ^ 31 ≤ (-2147483648 : ℤ) ∧ (-2147483648 : ℤ) < 2 ^ 31) ∧
     (-2 ^ 31 ≤ (2147483647 : ℤ) ∧ (2147483647 : ℤ) < 2 ^ 31)) ∧
    (Vec2D.fromI32 (Vec2D.new (-2147483648) 2147483647) =
        Vec2D.new (((-2147483648 : ℤ) : ℝ)) (((2147483647 : ℤ) : ℝ)) ∧
     (∃ m e : ℤ, |m| < 2 ^ 53 ∧ (((-2147483648 : ℤ)) : ℝ) = (m : ℝ) * 2 ^ e) ∧
     (∃ m e : ℤ, |m| < 2 ^ 53 ∧ (((2147483647 : ℤ)) : ℝ) = (m : ℝ) * 2 ^ e)) := by
  have h1 : -2 ^ 31 ≤ (-2147483648 : ℤ) ∧ (-2147483648 : ℤ) < 2 ^ 31 := by
    norm_num
  have h2 : -2 ^ 31 ≤ (2147483647 : ℤ) ∧ (2147483647 : ℤ) < 2 ^ 31 := by
    norm_num
  exact ⟨⟨h1, h2⟩,
    C8_conversion_exact (Vec2D.new (-2147483648) 2147483647) h1 h2⟩

/-- Claim C9: `abs` fails unconditionally (its body is
`unimplemented!()`, a panic, modelled as `none`): it never returns a
value, for every vector of every scalar instantiation. -/
theorem C9_abs_unimplemented {T : Type} (v : Vec2D T) :
    Vec2D.abs v = none := rfl

/-- Claim C10: the magnitude of the zero vector is exactly `0.0` —
`sqrt(f64(0*0 + 0*0)) = sqrt(0) = 0`, a finite value — for both the
`i32` and the `f64` instantiation; the degenerate division only enters
at `to_unit`. -/
theorem C10_zero_vector_magnitude :
    Vec2D.magnitudeI32 (Vec2D.new 0 0) = 0 ∧
    Vec2D.magnitudeR (Vec2D.new 0 0) = 0 := by
  constructor
  · show Real.sqrt (i32ToR (i32Add (i32Mul 0 0) (i32Mul 0 0))) = 0
    have h0 : i32Add (i32Mul 0 0) (i32Mul 0 0) = 0 := by decide
    rw [h0]
    norm_num [i32ToR]
  · show Real.sqrt ((0 : ℝ) * 0 + 0 * 0) = 0
    norm_num
